import Mathlib

/-!
# The JPEG decoding example of libimxvpuapi

A shallow embedding of `example/jpeg-dec-example.c`.  The three functions of the
file, `init`, `run` and `shutdown`, become state transformers over an explicit
process state: the two streams, the text printed to stderr, the heap and the
log of every external call in the order the C code makes it.

The VPU library itself is not part of the sources.  Whatever it answers during
one session (the decoder handle, the return code of the decode call, the
decoded picture, the metadata record, the contents of the mapped DMA buffer and
its two to-string functions) is collected in `VpuLibrary`; every theorem
quantifies over all such answers.

Integer widths: `unsigned int` is 32 bits wide, so the arithmetic on the
`unsigned int` fields of the metadata record and the assignment to the
`unsigned int` field `data_size` are reduced modulo `2 ^ 32`.  The standard
library calls are taken to succeed (the source does not check any of them):
`ftell` returns the stream position, which the `long` variable `size` holds
exactly, `malloc` returns a fresh block, `fread` and `fwrite` transfer the
bytes they are asked to.
-/

namespace JpegDecExample

/-! ## Data model -/

/-- One octet of file contents or of memory. -/
abbrev Byte := Fin 256

/-- The number of values of the C type `unsigned int` (32 bits). -/
def UINT_RANGE : Nat := 2 ^ 32

/-- Conversion of a non-negative value to `unsigned int`. -/
def to_unsigned (n : Nat) : Nat := n % UINT_RANGE

/-- The result type of `run`.  The enumeration is declared in `main.h`, which is
not among the sources; these are the two values that `run` returns. -/
inductive Retval
  | RETVAL_OK
  | RETVAL_ERROR
  deriving DecidableEq, Repr

/-- The C enumeration of decoder return codes, an `int`. -/
abbrev ImxVpuDecReturnCodes := Int

/-- Modelled from the spec: the value of the constant
`IMX_VPU_DEC_RETURN_CODE_OK` of `imxvpuapi.h`, which is not among the sources.
Section 7 of the specification describes a failed decode call as one with a
non-zero return code, so the success code is zero. -/
def IMX_VPU_DEC_RETURN_CODE_OK : ImxVpuDecReturnCodes := 0

/-- Address of a heap block. -/
abbrev Ptr := Nat

/-- Handle of a DMA buffer. -/
abbrev ImxVpuDMABuffer := Nat

/-- Handle of a JPEG decoder. -/
abbrev ImxVpuJPEGDecoder := Nat

/-- The member `data` of an encoded frame; the example uses its
`virtual_address` alternative. -/
structure ImxVpuEncodedFrameData where
  virtual_address : Ptr
  deriving DecidableEq, Repr

/-- The fields of `ImxVpuEncodedFrame` that `run` sets.  The two sizes are
`unsigned int` (line 89 prints `data_size` with `%u`).  A NULL `codec_data` is
`none`. -/
structure ImxVpuEncodedFrame where
  data : ImxVpuEncodedFrameData
  data_size : Nat
  codec_data : Option Ptr
  codec_data_size : Nat
  deriving DecidableEq, Repr

/-- A framebuffer of the decoder, with the DMA buffer that holds its pixels. -/
structure ImxVpuFramebuffer where
  dma_buffer : ImxVpuDMABuffer
  deriving DecidableEq, Repr

/-- A decoded picture.  A NULL `framebuffer` is `none`. -/
structure ImxVpuPicture where
  framebuffer : Option ImxVpuFramebuffer
  deriving DecidableEq, Repr

/-- The metadata record filled in by `imx_vpu_jpeg_dec_get_info`.  Every numeric
field is an `unsigned int`; the color format is an enumeration value. -/
structure ImxVpuJPEGInfo where
  aligned_frame_width : Nat
  aligned_frame_height : Nat
  actual_frame_width : Nat
  actual_frame_height : Nat
  y_stride : Nat
  cbcr_stride : Nat
  y_size : Nat
  cbcr_size : Nat
  y_offset : Nat
  cb_offset : Nat
  cr_offset : Nat
  color_format : Nat
  deriving DecidableEq, Repr

/-- The fields of the record are in the range of `unsigned int`. -/
def ImxVpuJPEGInfo.inRange (info : ImxVpuJPEGInfo) : Prop :=
  info.aligned_frame_width < UINT_RANGE ∧ info.aligned_frame_height < UINT_RANGE ∧
  info.actual_frame_width < UINT_RANGE ∧ info.actual_frame_height < UINT_RANGE ∧
  info.y_stride < UINT_RANGE ∧ info.cbcr_stride < UINT_RANGE ∧
  info.y_size < UINT_RANGE ∧ info.cbcr_size < UINT_RANGE ∧
  info.y_offset < UINT_RANGE ∧ info.cb_offset < UINT_RANGE ∧ info.cr_offset < UINT_RANGE

instance (info : ImxVpuJPEGInfo) : Decidable info.inRange := by
  unfold ImxVpuJPEGInfo.inRange; infer_instance

/-- The answers of the VPU library during one session. -/
structure VpuLibrary where
  /-- the handle that `imx_vpu_jpeg_dec_open` stores -/
  jpeg_decoder : ImxVpuJPEGDecoder
  /-- the return code of `imx_vpu_jpeg_dec_decode` -/
  dec_ret : ImxVpuDecReturnCodes
  /-- the picture that `imx_vpu_jpeg_dec_decode` stores -/
  decoded_picture : ImxVpuPicture
  /-- the record that `imx_vpu_jpeg_dec_get_info` stores -/
  info : ImxVpuJPEGInfo
  /-- the byte at each offset from the address `imx_vpu_dma_buffer_map` returns -/
  mapped : Nat → Byte
  imx_vpu_dec_error_string : ImxVpuDecReturnCodes → String
  imx_vpu_color_format_string : Nat → String

/-- A stdio stream: the bytes of the file and the position indicator. -/
structure FILE where
  bytes : List Byte
  pos : Nat
  deriving DecidableEq, Repr

/-- The heap: the live blocks with their contents, and the next fresh address. -/
structure Heap where
  blocks : List (Ptr × List Byte)
  next : Ptr
  deriving DecidableEq, Repr

/-- One external call, as logged in program order. -/
inductive Call
  | calloc
  | imx_vpu_jpeg_dec_open
  | fseek_end
  | ftell
  | fseek_set
  | malloc (size : Nat) (result : Ptr)
  | fread (buf : Ptr) (count : Nat)
  | fprintf (text : String)
  /-- the decode call, with the frame passed and the contents of the block the
  frame points to at the time of the call -/
  | imx_vpu_jpeg_dec_decode (decoder : ImxVpuJPEGDecoder) (frame : ImxVpuEncodedFrame)
      (memory : Option (List Byte))
  | imx_vpu_jpeg_dec_get_info (decoder : ImxVpuJPEGDecoder)
  | free (buf : Ptr)
  | imx_vpu_dma_buffer_map (buffer : ImxVpuDMABuffer)
  | fwrite (count : Nat)
  | imx_vpu_dma_buffer_unmap (buffer : ImxVpuDMABuffer)
  | imx_vpu_jpeg_dec_picture_finished (decoder : ImxVpuJPEGDecoder) (picture : ImxVpuPicture)
  | imx_vpu_jpeg_dec_close (decoder : ImxVpuJPEGDecoder)
  deriving DecidableEq, Repr

/-- The record `struct _Context`.  The two streams are held by value: a change
of `*ctx->fin` or `*ctx->fout` is a change of the field. -/
structure Context where
  fin : FILE
  fout : FILE
  jpeg_decoder : ImxVpuJPEGDecoder
  deriving DecidableEq, Repr

/-- The state of the process: the context, the texts printed to stderr, the heap
and the log of external calls (oldest first). -/
structure State where
  ctx : Context
  stderr : List String
  heap : Heap
  calls : List Call
  deriving DecidableEq, Repr

/-! ## The C library -/

/-- A heap without blocks; address 0 is NULL, so fresh addresses start at 1. -/
def Heap.empty : Heap := { blocks := [], next := 1 }

/-- The call `malloc(size)`: a fresh block of `size` bytes (their initial value
is unspecified in C; the block starts with zeros here). -/
def Heap.malloc (h : Heap) (size : Nat) : Ptr × Heap :=
  (h.next, { blocks := (h.next, List.replicate size 0) :: h.blocks, next := h.next + 1 })

/-- The contents of the live block at `p`. -/
def Heap.load (h : Heap) (p : Ptr) : Option (List Byte) :=
  (h.blocks.find? (fun b => b.1 == p)).map (fun b => b.2)

/-- Overwrite the start of the block at `p` with `data`. -/
def Heap.store (h : Heap) (p : Ptr) (data : List Byte) : Heap :=
  { h with blocks := h.blocks.map (fun b =>
      if b.1 == p then (b.1, data ++ b.2.drop data.length) else b) }

/-- The call `free(p)`. -/
def Heap.free (h : Heap) (p : Ptr) : Heap :=
  { h with blocks := h.blocks.filter (fun b => b.1 != p) }

/-- Whether the block at `p` is allocated. -/
def Heap.live (h : Heap) (p : Ptr) : Bool :=
  h.blocks.any (fun b => b.1 == p)

/-- The call `fseek(f, 0, SEEK_END)`. -/
def fseek_end (f : FILE) : FILE := { f with pos := f.bytes.length }

/-- The call `fseek(f, 0, SEEK_SET)`. -/
def fseek_set (f : FILE) : FILE := { f with pos := 0 }

/-- The call `ftell(f)`. -/
def ftell (f : FILE) : Nat := f.pos

/-- The call `fread(buf, 1, count, f)`: the bytes read and the advanced stream. -/
def fread (f : FILE) (count : Nat) : List Byte × FILE :=
  let got := (f.bytes.drop f.pos).take count
  (got, { f with pos := f.pos + got.length })

/-- The call `fwrite(data, 1, count, f)`: the bytes are written at the position
of the stream, over whatever the file holds there, and the position advances by
their number.  The bytes before the position and the bytes beyond the written
range stay; a gap left by a position beyond the end of the file holds zeros. -/
def fwrite (f : FILE) (data : List Byte) : FILE :=
  { bytes := f.bytes.take f.pos ++ List.replicate (f.pos - f.bytes.length) 0 ++ data ++
      f.bytes.drop (f.pos + data.length),
    pos := f.pos + data.length }

/-- Append a call to the log. -/
def State.log (s : State) (c : Call) : State := { s with calls := s.calls ++ [c] }

/-- The call `fprintf(stderr, ...)` with the rendered text. -/
def State.fprintf_stderr (s : State) (text : String) : State :=
  ({ s with stderr := s.stderr ++ [text] }).log (Call.fprintf text)

/-- The `count` bytes of memory that start at a mapped address. -/
def read_mapped (mapped : Nat → Byte) (count : Nat) : List Byte :=
  (List.range count).map mapped

/-! ## The texts of the example -/

/-- Line 89: `"encoded input frame:  size: %u byte\n"`. -/
def text_encoded_frame (data_size : Nat) : String :=
  "encoded input frame:  size: " ++ toString data_size ++ " byte\n"

/-- Line 97: the message for a NULL framebuffer. -/
def text_framebuffer_null : String :=
  "could not decode this JPEG image : unspecified error (framebuffer is NULL)\n"

/-- Line 99: `"could not decode this JPEG image : %s\n"`. -/
def text_decode_error (error_string : String) : String :=
  "could not decode this JPEG image : " ++ error_string ++ "\n"

/-- Lines 106 to 115: the metadata line. -/
def text_info (info : ImxVpuJPEGInfo) (color_format : String) : String :=
  "aligned frame size: " ++ toString info.aligned_frame_width ++ " x "
    ++ toString info.aligned_frame_height
    ++ " pixel  actual frame size: " ++ toString info.actual_frame_width ++ " x "
    ++ toString info.actual_frame_height
    ++ " pixel  Y/Cb/Cr stride: " ++ toString info.y_stride ++ "/"
    ++ toString info.cbcr_stride ++ "/" ++ toString info.cbcr_stride
    ++ "  Y/Cb/Cr size: " ++ toString info.y_size ++ "/"
    ++ toString info.cbcr_size ++ "/" ++ toString info.cbcr_size
    ++ "  Y/Cb/Cr offset: " ++ toString info.y_offset ++ "/"
    ++ toString info.cb_offset ++ "/" ++ toString info.cr_offset
    ++ "  color format: " ++ color_format ++ "\n"

/-- Line 122: `"decoded output picture:  writing %u byte\n"`. -/
def text_writing (num_out_byte : Nat) : String :=
  "decoded output picture:  writing " ++ toString num_out_byte ++ " byte\n"

/-! ## The example -/

/-- Line 121: `info.y_size + info.cbcr_size * 2`, evaluated in `unsigned int`. -/
def num_out_byte (info : ImxVpuJPEGInfo) : Nat :=
  to_unsigned (info.y_size + to_unsigned (info.cbcr_size * 2))

/-- The function `init`.  The record that `calloc` returns is kept as the field
`ctx` of the state; the call itself is logged. -/
def init (lib : VpuLibrary) (input_file output_file : FILE)
    (stderr : List String) (heap : Heap) (calls : List Call) : State :=
  -- ctx = calloc(1, sizeof(Context)); ctx->fin = input_file; ctx->fout = output_file;
  let s : State :=
    { ctx := { fin := input_file, fout := output_file, jpeg_decoder := 0 },
      stderr := stderr, heap := heap, calls := calls ++ [Call.calloc] }
  -- imx_vpu_jpeg_dec_open(&(ctx->jpeg_decoder), NULL, 0);
  let s := { s with ctx := { s.ctx with jpeg_decoder := lib.jpeg_decoder } }
  s.log Call.imx_vpu_jpeg_dec_open

/-- The function `run`. -/
def run (lib : VpuLibrary) (s : State) : Retval × State :=
  -- fseek(ctx->fin, 0, SEEK_END); size = ftell(ctx->fin); fseek(ctx->fin, 0, SEEK_SET);
  let s := ({ s with ctx := { s.ctx with fin := fseek_end s.ctx.fin } }).log Call.fseek_end
  let size := ftell s.ctx.fin
  let s := s.log Call.ftell
  let s := ({ s with ctx := { s.ctx with fin := fseek_set s.ctx.fin } }).log Call.fseek_set
  -- buf = malloc(size);
  let buf := (s.heap.malloc size).1
  let s := ({ s with heap := (s.heap.malloc size).2 }).log (Call.malloc size buf)
  -- fread(buf, 1, size, ctx->fin);
  let got := (fread s.ctx.fin size).1
  let s := ({ s with ctx := { s.ctx with fin := (fread s.ctx.fin size).2 },
                     heap := s.heap.store buf got }).log (Call.fread buf size)
  -- encoded_frame
  let encoded_frame : ImxVpuEncodedFrame :=
    { data := { virtual_address := buf },
      data_size := to_unsigned size,
      codec_data := none,
      codec_data_size := 0 }
  let s := s.fprintf_stderr (text_encoded_frame encoded_frame.data_size)
  -- dec_ret = imx_vpu_jpeg_dec_decode(ctx->jpeg_decoder, &encoded_frame, &decoded_picture);
  let s := s.log (Call.imx_vpu_jpeg_dec_decode s.ctx.jpeg_decoder encoded_frame
                    (s.heap.load encoded_frame.data.virtual_address))
  let dec_ret := lib.dec_ret
  let decoded_picture := lib.decoded_picture
  if h : dec_ret ≠ IMX_VPU_DEC_RETURN_CODE_OK ∨ decoded_picture.framebuffer = none then
    let s :=
      if dec_ret = IMX_VPU_DEC_RETURN_CODE_OK then
        s.fprintf_stderr text_framebuffer_null
      else
        s.fprintf_stderr (text_decode_error (lib.imx_vpu_dec_error_string dec_ret))
    (Retval.RETVAL_ERROR, s)
  else
    let framebuffer : ImxVpuFramebuffer :=
      decoded_picture.framebuffer.get (Option.isSome_iff_ne_none.2 (fun hn => h (Or.inr hn)))
    -- imx_vpu_jpeg_dec_get_info(ctx->jpeg_decoder, &info);
    let info := lib.info
    let s := s.log (Call.imx_vpu_jpeg_dec_get_info s.ctx.jpeg_decoder)
    let s := s.fprintf_stderr (text_info info (lib.imx_vpu_color_format_string info.color_format))
    -- free(buf);
    let s := ({ s with heap := s.heap.free buf }).log (Call.free buf)
    -- num_out_byte = info.y_size + info.cbcr_size * 2;
    let n := num_out_byte info
    let s := s.fprintf_stderr (text_writing n)
    -- mapped_virtual_address = imx_vpu_dma_buffer_map(..., IMX_VPU_MAPPING_FLAG_READ);
    let mapped_virtual_address := lib.mapped
    let s := s.log (Call.imx_vpu_dma_buffer_map framebuffer.dma_buffer)
    -- fwrite(mapped_virtual_address, 1, num_out_byte, ctx->fout);
    let s := ({ s with ctx := { s.ctx with
                  fout := fwrite s.ctx.fout (read_mapped mapped_virtual_address n) } }).log
                (Call.fwrite n)
    -- imx_vpu_dma_buffer_unmap(decoded_picture.framebuffer->dma_buffer);
    let s := s.log (Call.imx_vpu_dma_buffer_unmap framebuffer.dma_buffer)
    -- imx_vpu_jpeg_dec_picture_finished(ctx->jpeg_decoder, &decoded_picture);
    let s := s.log (Call.imx_vpu_jpeg_dec_picture_finished s.ctx.jpeg_decoder decoded_picture)
    (Retval.RETVAL_OK, s)

/-- The function `shutdown`. -/
def shutdown (s : State) : State :=
  -- imx_vpu_jpeg_dec_close(ctx->jpeg_decoder);
  s.log (Call.imx_vpu_jpeg_dec_close s.ctx.jpeg_decoder)

/-- One whole session: `init`, then `run`, then `shutdown`, in a fresh process. -/
def session (lib : VpuLibrary) (input_file output_file : FILE) : State :=
  shutdown (run lib (init lib input_file output_file [] Heap.empty [])).2

/-! ## Observations on the call log -/

/-- The calls that `run` adds to the log of state `s`. -/
def run_calls (lib : VpuLibrary) (s : State) : List Call :=
  (run lib s).2.calls.drop s.calls.length

/-- The texts that `run` prints to stderr from state `s`. -/
def run_stderr (lib : VpuLibrary) (s : State) : List String :=
  (run lib s).2.stderr.drop s.stderr.length

/-- The decode call reported a failure: a return code other than OK, or OK with
a NULL framebuffer (the condition of line 94). -/
def decode_failed (lib : VpuLibrary) : Prop :=
  lib.dec_ret ≠ IMX_VPU_DEC_RETURN_CODE_OK ∨ lib.decoded_picture.framebuffer = none

instance (lib : VpuLibrary) : Decidable (decode_failed lib) := by
  unfold decode_failed; infer_instance

/-- The call is a `malloc`. -/
def Call.isMalloc : Call → Bool
  | Call.malloc _ _ => true
  | _ => false

/-- The call is a `free`. -/
def Call.isFree : Call → Bool
  | Call.free _ => true
  | _ => false

/-- The call is `imx_vpu_jpeg_dec_decode`. -/
def Call.isDecode : Call → Bool
  | Call.imx_vpu_jpeg_dec_decode _ _ _ => true
  | _ => false

/-- The call is `imx_vpu_jpeg_dec_get_info`. -/
def Call.isGetInfo : Call → Bool
  | Call.imx_vpu_jpeg_dec_get_info _ => true
  | _ => false

/-- The call is `imx_vpu_dma_buffer_map`. -/
def Call.isMap : Call → Bool
  | Call.imx_vpu_dma_buffer_map _ => true
  | _ => false

/-- The call is an `fwrite`. -/
def Call.isWrite : Call → Bool
  | Call.fwrite _ => true
  | _ => false

/-- The call is `imx_vpu_dma_buffer_unmap`. -/
def Call.isUnmap : Call → Bool
  | Call.imx_vpu_dma_buffer_unmap _ => true
  | _ => false

/-- The call is `imx_vpu_jpeg_dec_picture_finished`. -/
def Call.isPictureFinished : Call → Bool
  | Call.imx_vpu_jpeg_dec_picture_finished _ _ => true
  | _ => false

/-- The call is `imx_vpu_jpeg_dec_close`. -/
def Call.isClose : Call → Bool
  | Call.imx_vpu_jpeg_dec_close _ => true
  | _ => false

/-- The calls that process a decoded picture: get_info, map, write, unmap and
picture_finished. -/
def Call.handlesPicture (c : Call) : Bool :=
  c.isGetInfo || c.isMap || c.isWrite || c.isUnmap || c.isPictureFinished

/-- The byte counts of the `fwrite` calls in a log. -/
def fwrite_counts (calls : List Call) : List Nat :=
  calls.filterMap (fun c => match c with
    | Call.fwrite n => some n
    | _ => none)

/-- No call that satisfies `q` comes after a call that satisfies `p`. -/
def none_after (p q : Call → Bool) : List Call → Bool
  | [] => true
  | c :: rest => (!p c || rest.all (fun d => !q d)) && none_after p q rest

/-- Every call `c` of `calls` that satisfies `q` has a call `e` before it (in
`earlier` or in `calls`) with `rel e c`. -/
def each_preceded (rel : Call → Call → Bool) (q : Call → Bool) :
    List Call → List Call → Bool
  | _, [] => true
  | earlier, c :: rest =>
      (!q c || earlier.any (fun e => rel e c)) && each_preceded rel q (earlier ++ [c]) rest

/-- Every call that satisfies `p` has a later call that satisfies `q`. -/
def each_followed (p q : Call → Bool) : List Call → Bool
  | [] => true
  | c :: rest => (!p c || rest.any q) && each_followed p q rest

/-- Call `e` maps the DMA buffer that call `c` unmaps. -/
def Call.mapsFor (e c : Call) : Bool :=
  match e, c with
  | Call.imx_vpu_dma_buffer_map d, Call.imx_vpu_dma_buffer_unmap d2 => d == d2
  | _, _ => false

/-- Call `e` unmaps the DMA buffer of the picture that call `c` releases. -/
def Call.unmapsFor (e c : Call) : Bool :=
  match e, c with
  | Call.imx_vpu_dma_buffer_unmap d, Call.imx_vpu_jpeg_dec_picture_finished _ picture =>
      picture.framebuffer == some { dma_buffer := d }
  | _, _ => false

/-- A call that releases the picture or the decoder. -/
def Call.releases (c : Call) : Bool := c.isPictureFinished || c.isClose

/-- A call that uses the picture: map, unmap, get_info or picture_finished. -/
def Call.usesPicture (c : Call) : Bool :=
  c.isMap || c.isUnmap || c.isGetInfo || c.isPictureFinished

/-- The stages of the lifecycle of one frame. -/
inductive Step
  | allocate_input
  | decode
  | read_metadata
  | map_output
  | write_output
  | unmap_output
  | release_picture
  | free_input
  deriving DecidableEq, Repr

/-- The lifecycle stage that a call carries out, if any. -/
def Call.step : Call → Option Step
  | Call.malloc _ _ => some Step.allocate_input
  | Call.imx_vpu_jpeg_dec_decode _ _ _ => some Step.decode
  | Call.imx_vpu_jpeg_dec_get_info _ => some Step.read_metadata
  | Call.imx_vpu_dma_buffer_map _ => some Step.map_output
  | Call.fwrite _ => some Step.write_output
  | Call.imx_vpu_dma_buffer_unmap _ => some Step.unmap_output
  | Call.imx_vpu_jpeg_dec_picture_finished _ _ => some Step.release_picture
  | Call.free _ => some Step.free_input
  | _ => none

/-- The lifecycle stages of a log, in order. -/
def lifecycle (calls : List Call) : List Step := calls.filterMap Call.step

/-- The text with which both error messages of `run` begin. -/
def could_not_decode : String := "could not decode this JPEG image : "

/-- A text is a decode error message: it begins with `could_not_decode`. -/
def is_decode_error_text (t : String) : Bool :=
  t.data.take could_not_decode.length == could_not_decode.data

/-- The output begins with the magic number of a PPM file, `P6` or `P3`. -/
def has_ppm_magic (out : List Byte) : Bool :=
  out.take 2 == [0x50, 0x36] || out.take 2 == [0x50, 0x33]

/-! ## Concrete inputs -/

/-- A four byte input file (the JPEG markers SOI and EOI). -/
def tiny_file : FILE := { bytes := [0xFF, 0xD8, 0xFF, 0xD9], pos := 0 }

/-- An empty output file. -/
def empty_file : FILE := { bytes := [], pos := 0 }

/-- The metadata of a 2 x 2 picture in a 4:2:0 layout. -/
def tiny_info : ImxVpuJPEGInfo :=
  { aligned_frame_width := 16, aligned_frame_height := 16,
    actual_frame_width := 2, actual_frame_height := 2,
    y_stride := 16, cbcr_stride := 8, y_size := 4, cbcr_size := 1,
    y_offset := 0, cb_offset := 4, cr_offset := 5, color_format := 0 }

/-- A library that decodes successfully into DMA buffer 3, whose mapped memory
holds the bytes 128, 129, 130, ... -/
def lib_ok : VpuLibrary :=
  { jpeg_decoder := 7,
    dec_ret := IMX_VPU_DEC_RETURN_CODE_OK,
    decoded_picture := { framebuffer := some { dma_buffer := 3 } },
    info := tiny_info,
    mapped := fun i => Fin.ofNat (128 + i),
    imx_vpu_dec_error_string := fun r => if r = 0 then "ok" else "error",
    imx_vpu_color_format_string := fun _ => "YUV 4:2:0" }

/-- A library whose decode call returns the code 1. -/
def lib_error : VpuLibrary := { lib_ok with dec_ret := 1 }

/-- A library whose decode call returns OK with a NULL framebuffer. -/
def lib_null : VpuLibrary := { lib_ok with decoded_picture := { framebuffer := none } }

/-- A library that reports plane sizes whose sum exceeds the range of
`unsigned int`. -/
def lib_wrap : VpuLibrary :=
  { lib_ok with info := { tiny_info with y_size := 4294967295, cbcr_size := 1 } }

/-- The state in which `init` leaves a fresh process. -/
def start : State := init lib_ok tiny_file empty_file [] Heap.empty []

/-- An input file of 2 ^ 32 bytes. -/
def huge_file : FILE := { bytes := List.replicate (2 ^ 32) 0, pos := 0 }

/-- The state in which `init` leaves a fresh process whose input is `huge_file`. -/
def huge_start : State := init lib_ok huge_file empty_file [] Heap.empty []

/-! ## The three paths of `run` in closed form -/

/-- The encoded frame that `run` builds in state `s`. -/
def submitted_frame (s : State) : ImxVpuEncodedFrame :=
  { data := { virtual_address := s.heap.next },
    data_size := to_unsigned s.ctx.fin.bytes.length,
    codec_data := none,
    codec_data_size := 0 }

/-- The calls of `run` up to and including the decode call. -/
def calls_to_decode (s : State) : List Call :=
  [Call.fseek_end, Call.ftell, Call.fseek_set,
   Call.malloc s.ctx.fin.bytes.length s.heap.next,
   Call.fread s.heap.next s.ctx.fin.bytes.length,
   Call.fprintf (text_encoded_frame (to_unsigned s.ctx.fin.bytes.length)),
   Call.imx_vpu_jpeg_dec_decode s.ctx.jpeg_decoder (submitted_frame s) (some s.ctx.fin.bytes)]

/-- The calls of `run` after a successful decode call. -/
def calls_after_decode (lib : VpuLibrary) (s : State) (fb : ImxVpuFramebuffer) : List Call :=
  [Call.imx_vpu_jpeg_dec_get_info s.ctx.jpeg_decoder,
   Call.fprintf (text_info lib.info (lib.imx_vpu_color_format_string lib.info.color_format)),
   Call.free s.heap.next,
   Call.fprintf (text_writing (num_out_byte lib.info)),
   Call.imx_vpu_dma_buffer_map fb.dma_buffer,
   Call.fwrite (num_out_byte lib.info),
   Call.imx_vpu_dma_buffer_unmap fb.dma_buffer,
   Call.imx_vpu_jpeg_dec_picture_finished s.ctx.jpeg_decoder lib.decoded_picture]

theorem decode_failed_cases (lib : VpuLibrary) :
    lib.dec_ret ≠ IMX_VPU_DEC_RETURN_CODE_OK ∨
    (lib.dec_ret = IMX_VPU_DEC_RETURN_CODE_OK ∧ lib.decoded_picture.framebuffer = none) ∨
    (lib.dec_ret = IMX_VPU_DEC_RETURN_CODE_OK ∧
      ∃ fb, lib.decoded_picture.framebuffer = some fb) := by
  by_cases h : lib.dec_ret = IMX_VPU_DEC_RETURN_CODE_OK
  · right
    cases hfb : lib.decoded_picture.framebuffer with
    | none => exact Or.inl ⟨h, rfl⟩
    | some fb => exact Or.inr ⟨h, fb, rfl⟩
  · exact Or.inl h

theorem not_failed_iff (lib : VpuLibrary) :
    ¬ decode_failed lib ↔
      lib.dec_ret = IMX_VPU_DEC_RETURN_CODE_OK ∧
      ∃ fb, lib.decoded_picture.framebuffer = some fb := by
  unfold decode_failed
  constructor
  · intro h
    rcases decode_failed_cases lib with h1 | ⟨_, h2⟩ | h3
    · exact absurd (Or.inl h1) h
    · exact absurd (Or.inr h2) h
    · exact h3
  · rintro ⟨h1, fb, h2⟩ h
    rcases h with h | h
    · exact h h1
    · rw [h2] at h; cases h

theorem run_calls_of_error (lib : VpuLibrary) (s : State)
    (h : lib.dec_ret ≠ IMX_VPU_DEC_RETURN_CODE_OK) :
    (run lib s).2.calls = s.calls ++ (calls_to_decode s ++
      [Call.fprintf (text_decode_error (lib.imx_vpu_dec_error_string lib.dec_ret))]) := by
  simp [run, h, State.log, State.fprintf_stderr, Heap.malloc, Heap.store, Heap.load, fread,
    ftell, fseek_end, fseek_set, calls_to_decode, submitted_frame]

theorem run_calls_of_null (lib : VpuLibrary) (s : State)
    (h : lib.dec_ret = IMX_VPU_DEC_RETURN_CODE_OK)
    (hfb : lib.decoded_picture.framebuffer = none) :
    (run lib s).2.calls = s.calls ++ (calls_to_decode s ++
      [Call.fprintf text_framebuffer_null]) := by
  simp [run, h, hfb, State.log, State.fprintf_stderr, Heap.malloc, Heap.store, Heap.load, fread,
    ftell, fseek_end, fseek_set, calls_to_decode, submitted_frame]

theorem run_calls_of_ok (lib : VpuLibrary) (s : State)
    (h : lib.dec_ret = IMX_VPU_DEC_RETURN_CODE_OK)
    (fb : ImxVpuFramebuffer) (hfb : lib.decoded_picture.framebuffer = some fb) :
    (run lib s).2.calls = s.calls ++ (calls_to_decode s ++ calls_after_decode lib s fb) := by
  simp [run, h, hfb, State.log, State.fprintf_stderr, Heap.malloc, Heap.store, Heap.load, fread,
    ftell, fseek_end, fseek_set, calls_to_decode, calls_after_decode, submitted_frame]

theorem run_calls_error (lib : VpuLibrary) (s : State)
    (h : lib.dec_ret ≠ IMX_VPU_DEC_RETURN_CODE_OK) :
    run_calls lib s = calls_to_decode s ++
      [Call.fprintf (text_decode_error (lib.imx_vpu_dec_error_string lib.dec_ret))] := by
  unfold run_calls
  rw [run_calls_of_error lib s h, List.drop_left]

theorem run_calls_null (lib : VpuLibrary) (s : State)
    (h : lib.dec_ret = IMX_VPU_DEC_RETURN_CODE_OK)
    (hfb : lib.decoded_picture.framebuffer = none) :
    run_calls lib s = calls_to_decode s ++ [Call.fprintf text_framebuffer_null] := by
  unfold run_calls
  rw [run_calls_of_null lib s h hfb, List.drop_left]

theorem run_calls_ok (lib : VpuLibrary) (s : State)
    (h : lib.dec_ret = IMX_VPU_DEC_RETURN_CODE_OK)
    (fb : ImxVpuFramebuffer) (hfb : lib.decoded_picture.framebuffer = some fb) :
    run_calls lib s = calls_to_decode s ++ calls_after_decode lib s fb := by
  unfold run_calls
  rw [run_calls_of_ok lib s h fb hfb, List.drop_left]

theorem run_ret_error (lib : VpuLibrary) (s : State) (h : decode_failed lib) :
    (run lib s).1 = Retval.RETVAL_ERROR := by
  unfold decode_failed at h
  simp [run, h]

theorem run_ret_ok (lib : VpuLibrary) (s : State) (h : ¬ decode_failed lib) :
    (run lib s).1 = Retval.RETVAL_OK := by
  unfold decode_failed at h
  simp [run, h]

theorem run_fout_failed (lib : VpuLibrary) (s : State) (h : decode_failed lib) :
    (run lib s).2.ctx.fout = s.ctx.fout := by
  rcases decode_failed_cases lib with h1 | ⟨h1, h2⟩ | ⟨h1, fb, h2⟩
  · simp [run, h1, State.log, State.fprintf_stderr]
  · simp [run, h1, h2, State.log, State.fprintf_stderr]
  · exact absurd h ((not_failed_iff lib).2 ⟨h1, fb, h2⟩)

theorem run_fout_ok (lib : VpuLibrary) (s : State) (h : ¬ decode_failed lib) :
    (run lib s).2.ctx.fout =
      fwrite s.ctx.fout (read_mapped lib.mapped (num_out_byte lib.info)) := by
  unfold decode_failed at h
  simp [run, h, State.log, State.fprintf_stderr]

theorem num_out_byte_eq (info : ImxVpuJPEGInfo) :
    num_out_byte info = (info.y_size + 2 * info.cbcr_size) % 2 ^ 32 := by
  unfold num_out_byte to_unsigned UINT_RANGE
  rw [Nat.add_mod_mod, Nat.mul_comm]

/-! ## Return value and failure paths -/

/-- C1: `run` returns RETVAL_ERROR exactly when the decode call gave a return
code other than OK or a NULL framebuffer, and RETVAL_OK exactly otherwise.  On
such a failure the invocation ends there: `run` makes no get_info, map, write,
unmap or picture_finished call, and from the decode call on its log holds only
that call and the printing of one text. -/
theorem run_error_iff_decode_failed (lib : VpuLibrary) (s : State) :
    ((run lib s).1 = Retval.RETVAL_ERROR ↔
      (lib.dec_ret ≠ IMX_VPU_DEC_RETURN_CODE_OK ∨ lib.decoded_picture.framebuffer = none)) ∧
    ((run lib s).1 = Retval.RETVAL_OK ↔
      ¬ (lib.dec_ret ≠ IMX_VPU_DEC_RETURN_CODE_OK ∨ lib.decoded_picture.framebuffer = none)) ∧
    ((lib.dec_ret ≠ IMX_VPU_DEC_RETURN_CODE_OK ∨ lib.decoded_picture.framebuffer = none) →
      (∀ c ∈ run_calls lib s, c.handlesPicture = false) ∧
      ∃ frame memory text, (run_calls lib s).dropWhile (fun c => !c.isDecode) =
        [Call.imx_vpu_jpeg_dec_decode s.ctx.jpeg_decoder frame memory, Call.fprintf text]) := by
  by_cases h : decode_failed lib
  · have hret := run_ret_error lib s h
    refine ⟨⟨fun _ => h, fun _ => hret⟩, ⟨fun h2 => ?_, fun h2 => absurd h h2⟩, fun _ => ?_⟩
    · rw [hret] at h2; cases h2
    · rcases decode_failed_cases lib with h1 | ⟨h1, h2⟩ | ⟨h1, fb, h2⟩
      · rw [run_calls_error lib s h1]
        refine ⟨?_, submitted_frame s, some s.ctx.fin.bytes,
          text_decode_error (lib.imx_vpu_dec_error_string lib.dec_ret), ?_⟩
        · simp [calls_to_decode, Call.handlesPicture, Call.isGetInfo, Call.isMap, Call.isWrite,
            Call.isUnmap, Call.isPictureFinished]
        · simp [calls_to_decode, List.dropWhile, Call.isDecode]
      · rw [run_calls_null lib s h1 h2]
        refine ⟨?_, submitted_frame s, some s.ctx.fin.bytes, text_framebuffer_null, ?_⟩
        · simp [calls_to_decode, Call.handlesPicture, Call.isGetInfo, Call.isMap, Call.isWrite,
            Call.isUnmap, Call.isPictureFinished]
        · simp [calls_to_decode, List.dropWhile, Call.isDecode]
      · exact absurd h ((not_failed_iff lib).2 ⟨h1, fb, h2⟩)
  · have hret := run_ret_ok lib s h
    refine ⟨⟨fun h2 => ?_, fun h2 => absurd h2 h⟩, ⟨fun _ => h, fun _ => hret⟩,
      fun h2 => absurd h2 h⟩
    rw [hret] at h2; cases h2

/-- Witness of C1 at a decode call that returns the code 1. -/
theorem run_error_iff_decode_failed_witness :
    (run lib_error start).1 = Retval.RETVAL_ERROR ∧
    (∀ c ∈ run_calls lib_error start, c.handlesPicture = false) :=
  ⟨(run_error_iff_decode_failed lib_error start).1.2 (Or.inl (by decide)),
   ((run_error_iff_decode_failed lib_error start).2.2 (Or.inl (by decide))).1⟩

/-- C3: when the decode call reports a failure (a return code other than OK, or
OK with a NULL framebuffer), `run` makes no `fwrite` call and the output stream
after `run` is the output stream before `run`. -/
theorem run_failure_writes_nothing (lib : VpuLibrary) (s : State)
    (h : decode_failed lib) :
    (run lib s).2.ctx.fout = s.ctx.fout ∧ fwrite_counts (run_calls lib s) = [] := by
  refine ⟨run_fout_failed lib s h, ?_⟩
  rcases decode_failed_cases lib with h1 | ⟨h1, h2⟩ | ⟨h1, fb, h2⟩
  · rw [run_calls_error lib s h1]
    simp [calls_to_decode, fwrite_counts]
  · rw [run_calls_null lib s h1 h2]
    simp [calls_to_decode, fwrite_counts]
  · exact absurd h ((not_failed_iff lib).2 ⟨h1, fb, h2⟩)

/-- Witness of C3 at a decode call that returns OK with a NULL framebuffer. -/
theorem run_failure_writes_nothing_witness :
    decode_failed lib_null ∧
    (run lib_null start).2.ctx.fout = start.ctx.fout ∧
    fwrite_counts (run_calls lib_null start) = [] :=
  ⟨by decide, run_failure_writes_nothing lib_null start (by decide)⟩

/-! ## The size of the output -/

/-- C2, as stated, fails: with the plane sizes 4294967295 and 1 (both in the
range of `unsigned int`) a successful `run` asks `fwrite` for 1 byte, while the
luma size plus twice the chroma size is 4294967297. -/
theorem fwrite_count_wraps :
    ¬ decode_failed lib_wrap ∧ lib_wrap.info.inRange ∧
    fwrite_counts (run_calls lib_wrap start) = [1] ∧
    lib_wrap.info.y_size + 2 * lib_wrap.info.cbcr_size = 4294967297 := by
  refine ⟨by decide, by decide, ?_, by decide⟩
  rw [run_calls_ok lib_wrap start rfl ⟨3⟩ rfl]
  simp [calls_to_decode, calls_after_decode, fwrite_counts, num_out_byte_eq]
  decide

/-- C2, amended: on every successful decode and for every metadata record, the
number of bytes `run` asks `fwrite` to write is the luma size plus twice the
chroma size reduced modulo 2 ^ 32 (the sum as computed in `unsigned int`); it is
the sum itself whenever the sum is below 2 ^ 32. -/
theorem fwrite_count_eq (lib : VpuLibrary) (s : State) (h : ¬ decode_failed lib) :
    fwrite_counts (run_calls lib s) = [(lib.info.y_size + 2 * lib.info.cbcr_size) % 2 ^ 32] ∧
    (lib.info.y_size + 2 * lib.info.cbcr_size < 2 ^ 32 →
      fwrite_counts (run_calls lib s) = [lib.info.y_size + 2 * lib.info.cbcr_size]) := by
  obtain ⟨h1, fb, h2⟩ := (not_failed_iff lib).1 h
  have key : fwrite_counts (run_calls lib s) =
      [(lib.info.y_size + 2 * lib.info.cbcr_size) % 2 ^ 32] := by
    rw [run_calls_ok lib s h1 fb h2]
    simp [calls_to_decode, calls_after_decode, fwrite_counts, num_out_byte_eq]
  refine ⟨key, fun hlt => ?_⟩
  rw [key, Nat.mod_eq_of_lt hlt]

/-- Witness of the amended C2 at a 2 x 2 picture: 4 + 2 * 1 bytes. -/
theorem fwrite_count_eq_witness :
    ¬ decode_failed lib_ok ∧ fwrite_counts (run_calls lib_ok start) = [4 + 2 * 1] :=
  ⟨by decide, (fwrite_count_eq lib_ok start (by decide)).2 (by decide)⟩

/-! ## Order of the calls -/

theorem run_jpeg_decoder (lib : VpuLibrary) (s : State) :
    (run lib s).2.ctx.jpeg_decoder = s.ctx.jpeg_decoder := by
  rcases decode_failed_cases lib with h1 | ⟨h1, h2⟩ | ⟨h1, fb, h2⟩
  · simp [run, h1, State.log, State.fprintf_stderr]
  · simp [run, h1, h2, State.log, State.fprintf_stderr]
  · simp [run, h1, h2, State.log, State.fprintf_stderr]

theorem session_calls_eq (lib : VpuLibrary) (input_file output_file : FILE) :
    (session lib input_file output_file).calls =
      [Call.calloc, Call.imx_vpu_jpeg_dec_open] ++
      run_calls lib (init lib input_file output_file [] Heap.empty []) ++
      [Call.imx_vpu_jpeg_dec_close lib.jpeg_decoder] := by
  have hd : ((run lib (init lib input_file output_file [] Heap.empty [])).2).ctx.jpeg_decoder =
      lib.jpeg_decoder := by
    rw [run_jpeg_decoder]; rfl
  have hc : (init lib input_file output_file [] Heap.empty []).calls =
      [Call.calloc, Call.imx_vpu_jpeg_dec_open] := rfl
  unfold session shutdown State.log run_calls
  simp only [hd]
  rcases decode_failed_cases lib with h1 | ⟨h1, h2⟩ | ⟨h1, fb, h2⟩
  · rw [run_calls_of_error lib _ h1, hc]; simp
  · rw [run_calls_of_null lib _ h1 h2, hc]; simp
  · rw [run_calls_of_ok lib _ h1 fb h2, hc]; simp

/-- C4: in the log of one session (`init`, then `run`, then `shutdown`), for
every decode outcome: every picture_finished call comes after an unmap call of
the DMA buffer of its picture; every picture_finished call is followed by the
close call and none comes after it; unmap, picture_finished and close are each
called at most once; every unmap call comes after a map call of the same buffer;
and no map, unmap, get_info or picture_finished call comes after a
picture_finished or close call. -/
theorem session_release_order (lib : VpuLibrary) (input_file output_file : FILE) :
    each_preceded Call.unmapsFor Call.isPictureFinished []
      (session lib input_file output_file).calls = true ∧
    each_followed Call.isPictureFinished Call.isClose
      (session lib input_file output_file).calls = true ∧
    none_after Call.isClose Call.isPictureFinished
      (session lib input_file output_file).calls = true ∧
    (session lib input_file output_file).calls.countP Call.isUnmap ≤ 1 ∧
    (session lib input_file output_file).calls.countP Call.isPictureFinished ≤ 1 ∧
    (session lib input_file output_file).calls.countP Call.isClose ≤ 1 ∧
    each_preceded Call.mapsFor Call.isUnmap []
      (session lib input_file output_file).calls = true ∧
    none_after Call.releases Call.usesPicture
      (session lib input_file output_file).calls = true := by
  rw [session_calls_eq]
  rcases decode_failed_cases lib with h1 | ⟨h1, h2⟩ | ⟨h1, fb, h2⟩
  · rw [run_calls_error lib _ h1]
    simp [calls_to_decode, each_preceded, each_followed, none_after, Call.isUnmap,
      Call.isPictureFinished, Call.isClose, Call.isMap, Call.isGetInfo, Call.releases,
      Call.usesPicture, Call.mapsFor, Call.unmapsFor, List.countP_cons]
  · rw [run_calls_null lib _ h1 h2]
    simp [calls_to_decode, each_preceded, each_followed, none_after, Call.isUnmap,
      Call.isPictureFinished, Call.isClose, Call.isMap, Call.isGetInfo, Call.releases,
      Call.usesPicture, Call.mapsFor, Call.unmapsFor, List.countP_cons]
  · rw [run_calls_ok lib _ h1 fb h2]
    simp [calls_to_decode, calls_after_decode, each_preceded, each_followed, none_after,
      Call.isUnmap, Call.isPictureFinished, Call.isClose, Call.isMap, Call.isGetInfo,
      Call.releases, Call.usesPicture, Call.mapsFor, Call.unmapsFor, List.countP_cons, h2]

/-- C5, as stated, fails: on a successful run the stages do not occur in the
order allocate, decode, read metadata, map, write, unmap, release picture, free
input buffer. -/
theorem lifecycle_not_as_claimed :
    ¬ decode_failed lib_ok ∧
    lifecycle (run_calls lib_ok start) ≠
      [Step.allocate_input, Step.decode, Step.read_metadata, Step.map_output,
       Step.write_output, Step.unmap_output, Step.release_picture, Step.free_input] := by
  refine ⟨by decide, ?_⟩
  rw [run_calls_ok lib_ok start rfl ⟨3⟩ rfl]
  simp [calls_to_decode, calls_after_decode, lifecycle, Call.step]

/-- C5, amended: on every successful run the stages occur in the order allocate
input buffer, decode, read metadata, free input buffer, map output, write
output, unmap output, release picture; the input buffer is freed right after the
metadata has been read, before the output is mapped. -/
theorem lifecycle_of_successful_run (lib : VpuLibrary) (s : State)
    (h : ¬ decode_failed lib) :
    lifecycle (run_calls lib s) =
      [Step.allocate_input, Step.decode, Step.read_metadata, Step.free_input,
       Step.map_output, Step.write_output, Step.unmap_output, Step.release_picture] := by
  obtain ⟨h1, fb, h2⟩ := (not_failed_iff lib).1 h
  rw [run_calls_ok lib s h1 fb h2]
  simp [calls_to_decode, calls_after_decode, lifecycle, Call.step]

/-- Witness of the amended C5 at the 2 x 2 picture. -/
theorem lifecycle_of_successful_run_witness :
    ¬ decode_failed lib_ok ∧
    lifecycle (run_calls lib_ok start) =
      [Step.allocate_input, Step.decode, Step.read_metadata, Step.free_input,
       Step.map_output, Step.write_output, Step.unmap_output, Step.release_picture] :=
  ⟨by decide, lifecycle_of_successful_run lib_ok start (by decide)⟩

/-- C6 on the code: when the decode call returns the code 1, `run` allocates the
input buffer once, never frees it and returns RETVAL_ERROR with the block still
allocated; the same holds when the decode call returns OK with a NULL
framebuffer.  On the successful path the buffer is freed once. -/
theorem run_error_keeps_input_buffer :
    decode_failed lib_error ∧
    (run lib_error start).1 = Retval.RETVAL_ERROR ∧
    (run_calls lib_error start).countP Call.isMalloc = 1 ∧
    (run_calls lib_error start).countP Call.isFree = 0 ∧
    (run lib_error start).2.heap.live start.heap.next = true ∧
    decode_failed lib_null ∧
    (run_calls lib_null start).countP Call.isFree = 0 ∧
    (run lib_null start).2.heap.live start.heap.next = true ∧
    (run_calls lib_ok start).countP Call.isFree = 1 ∧
    (run lib_ok start).2.heap.live start.heap.next = false := by
  refine ⟨by decide, by decide, ?_, ?_, by decide, by decide, ?_, by decide, ?_, by decide⟩
  · rw [run_calls_error lib_error start (by decide)]
    simp [calls_to_decode, List.countP_cons, Call.isMalloc]
  · rw [run_calls_error lib_error start (by decide)]
    simp [calls_to_decode, List.countP_cons, Call.isFree]
  · rw [run_calls_null lib_null start rfl rfl]
    simp [calls_to_decode, List.countP_cons, Call.isFree]
  · rw [run_calls_ok lib_ok start rfl ⟨3⟩ rfl]
    simp [calls_to_decode, calls_after_decode, List.countP_cons, Call.isFree]

/-! ## The encoded frame -/

theorem run_malloc_calls (lib : VpuLibrary) (s : State) :
    (run_calls lib s).filter Call.isMalloc =
      [Call.malloc s.ctx.fin.bytes.length s.heap.next] := by
  rcases decode_failed_cases lib with h1 | ⟨h1, h2⟩ | ⟨h1, fb, h2⟩
  · rw [run_calls_error lib s h1]
    simp [calls_to_decode, Call.isMalloc]
  · rw [run_calls_null lib s h1 h2]
    simp [calls_to_decode, Call.isMalloc]
  · rw [run_calls_ok lib s h1 fb h2]
    simp [calls_to_decode, calls_after_decode, Call.isMalloc]

theorem run_decode_calls (lib : VpuLibrary) (s : State) :
    (run_calls lib s).filter Call.isDecode =
      [Call.imx_vpu_jpeg_dec_decode s.ctx.jpeg_decoder (submitted_frame s)
        (some s.ctx.fin.bytes)] := by
  rcases decode_failed_cases lib with h1 | ⟨h1, h2⟩ | ⟨h1, fb, h2⟩
  · rw [run_calls_error lib s h1]
    simp [calls_to_decode, Call.isDecode]
  · rw [run_calls_null lib s h1 h2]
    simp [calls_to_decode, Call.isDecode]
  · rw [run_calls_ok lib s h1 fb h2]
    simp [calls_to_decode, calls_after_decode, Call.isDecode]

/-- C7, as stated, fails: for an input file of 4294967296 bytes the frame that
`run` submits has `data_size` 0, not the length of the file. -/
theorem data_size_wraps :
    huge_file.bytes.length = 4294967296 ∧
    (run_calls lib_ok huge_start).filter Call.isDecode =
      [Call.imx_vpu_jpeg_dec_decode 7
        { data := { virtual_address := 1 }, data_size := 0,
          codec_data := none, codec_data_size := 0 }
        (some huge_file.bytes)] := by
  have hlen : huge_file.bytes.length = 4294967296 := by
    show (List.replicate (2 ^ 32) (0 : Byte)).length = 4294967296
    rw [List.length_replicate]; rfl
  refine ⟨hlen, ?_⟩
  rw [run_decode_calls]
  have hf : submitted_frame huge_start =
      { data := { virtual_address := 1 }, data_size := 0,
        codec_data := none, codec_data_size := 0 } := by
    show ({ data := { virtual_address := 1 },
            data_size := to_unsigned huge_file.bytes.length,
            codec_data := none, codec_data_size := 0 } : ImxVpuEncodedFrame) = _
    rw [hlen]; rfl
  rw [hf]; rfl

/-- C7, amended: `run` makes exactly one `malloc` call, of as many bytes as the
input file has, and exactly one decode call; the frame of that call points to
the allocated block, which holds the bytes of the file in file order, has no
codec data (NULL, size 0), and its `data_size` is the file length reduced modulo
2 ^ 32, which is the file length itself for every file shorter than 2 ^ 32
bytes. -/
theorem run_submits_whole_file (lib : VpuLibrary) (s : State) :
    (run_calls lib s).filter Call.isMalloc =
      [Call.malloc s.ctx.fin.bytes.length s.heap.next] ∧
    (run_calls lib s).filter Call.isDecode =
      [Call.imx_vpu_jpeg_dec_decode s.ctx.jpeg_decoder
        { data := { virtual_address := s.heap.next },
          data_size := s.ctx.fin.bytes.length % 2 ^ 32,
          codec_data := none, codec_data_size := 0 }
        (some s.ctx.fin.bytes)] ∧
    (s.ctx.fin.bytes.length < 2 ^ 32 →
      (run_calls lib s).filter Call.isDecode =
        [Call.imx_vpu_jpeg_dec_decode s.ctx.jpeg_decoder
          { data := { virtual_address := s.heap.next },
            data_size := s.ctx.fin.bytes.length,
            codec_data := none, codec_data_size := 0 }
          (some s.ctx.fin.bytes)]) := by
  refine ⟨run_malloc_calls lib s, run_decode_calls lib s, fun hlt => ?_⟩
  have hmod : to_unsigned s.ctx.fin.bytes.length = s.ctx.fin.bytes.length :=
    Nat.mod_eq_of_lt hlt
  rw [run_decode_calls, submitted_frame, hmod]

/-- Witness of the amended C7 at the four byte file. -/
theorem run_submits_whole_file_witness :
    start.ctx.fin.bytes.length < 2 ^ 32 ∧
    (run_calls lib_ok start).filter Call.isDecode =
      [Call.imx_vpu_jpeg_dec_decode start.ctx.jpeg_decoder
        { data := { virtual_address := start.heap.next },
          data_size := start.ctx.fin.bytes.length,
          codec_data := none, codec_data_size := 0 }
        (some start.ctx.fin.bytes)] :=
  ⟨by decide, (run_submits_whole_file lib_ok start).2.2 (by decide)⟩

/-! ## The texts printed to stderr -/

theorem run_stderr_of_error (lib : VpuLibrary) (s : State)
    (h : lib.dec_ret ≠ IMX_VPU_DEC_RETURN_CODE_OK) :
    run_stderr lib s =
      [text_encoded_frame (to_unsigned s.ctx.fin.bytes.length),
       text_decode_error (lib.imx_vpu_dec_error_string lib.dec_ret)] := by
  have : (run lib s).2.stderr = s.stderr ++
      [text_encoded_frame (to_unsigned s.ctx.fin.bytes.length),
       text_decode_error (lib.imx_vpu_dec_error_string lib.dec_ret)] := by
    simp [run, h, State.log, State.fprintf_stderr, ftell, fseek_end]
  unfold run_stderr
  rw [this, List.drop_left]

theorem run_stderr_of_null (lib : VpuLibrary) (s : State)
    (h : lib.dec_ret = IMX_VPU_DEC_RETURN_CODE_OK)
    (hfb : lib.decoded_picture.framebuffer = none) :
    run_stderr lib s =
      [text_encoded_frame (to_unsigned s.ctx.fin.bytes.length), text_framebuffer_null] := by
  have : (run lib s).2.stderr = s.stderr ++
      [text_encoded_frame (to_unsigned s.ctx.fin.bytes.length), text_framebuffer_null] := by
    simp [run, h, hfb, State.log, State.fprintf_stderr, ftell, fseek_end]
  unfold run_stderr
  rw [this, List.drop_left]

theorem run_stderr_of_ok (lib : VpuLibrary) (s : State) (h : ¬ decode_failed lib) :
    run_stderr lib s =
      [text_encoded_frame (to_unsigned s.ctx.fin.bytes.length),
       text_info lib.info (lib.imx_vpu_color_format_string lib.info.color_format),
       text_writing (num_out_byte lib.info)] := by
  have : (run lib s).2.stderr = s.stderr ++
      [text_encoded_frame (to_unsigned s.ctx.fin.bytes.length),
       text_info lib.info (lib.imx_vpu_color_format_string lib.info.color_format),
       text_writing (num_out_byte lib.info)] := by
    unfold decode_failed at h
    simp [run, h, State.log, State.fprintf_stderr, ftell, fseek_end]
  unfold run_stderr
  rw [this, List.drop_left]

theorem error_text_of_append (e : String) :
    is_decode_error_text (could_not_decode ++ e) = true := by
  unfold is_decode_error_text
  rw [String.data_append]
  show (List.take could_not_decode.data.length (could_not_decode.data ++ e.data) ==
    could_not_decode.data) = true
  rw [List.take_left]
  exact beq_self_eq_true _

theorem head_of_error_text (t : String) (h : is_decode_error_text t = true) :
    t.data.head? = some 'c' := by
  unfold is_decode_error_text at h
  have h2 : List.take could_not_decode.length t.data = could_not_decode.data := by
    simpa using h
  have h3 : (List.take could_not_decode.length t.data).head? = some 'c' := by
    rw [h2]; rfl
  cases ht : t.data with
  | nil => rw [ht] at h3; simp at h3
  | cons a l =>
    rw [ht] at h3
    simpa [could_not_decode, String.length, List.take] using h3

theorem no_error_text_of_first (a b : String) (c : Char) (rest : List Char)
    (ha : a.data = c :: rest) (hc : c ≠ 'c') : is_decode_error_text (a ++ b) = false := by
  cases h : is_decode_error_text (a ++ b) with
  | false => rfl
  | true =>
    have h1 := head_of_error_text _ h
    rw [String.data_append, ha] at h1
    simp at h1
    exact absurd h1 hc

theorem text_encoded_frame_no_error (n : Nat) :
    is_decode_error_text (text_encoded_frame n) = false := by
  unfold text_encoded_frame
  simp only [String.append_assoc]
  exact no_error_text_of_first _ _ 'e' _ rfl (by decide)

theorem text_info_no_error (info : ImxVpuJPEGInfo) (color_format : String) :
    is_decode_error_text (text_info info color_format) = false := by
  unfold text_info
  simp only [String.append_assoc]
  exact no_error_text_of_first _ _ 'a' _ rfl (by decide)

theorem text_writing_no_error (n : Nat) :
    is_decode_error_text (text_writing n) = false := by
  unfold text_writing
  simp only [String.append_assoc]
  exact no_error_text_of_first _ _ 'd' _ rfl (by decide)

theorem text_decode_error_is_error (e : String) :
    is_decode_error_text (text_decode_error e) = true := by
  unfold text_decode_error
  rw [String.append_assoc]
  exact error_text_of_append _

theorem text_framebuffer_null_is_error :
    is_decode_error_text text_framebuffer_null = true := by
  decide

/-- C8: on a decode call with a return code other than OK, `run` prints (after
the line on the input size) the one text "could not decode this JPEG image : "
followed by the error string of the library for that return code and a newline;
on a return code OK with a NULL framebuffer it prints the one fixed text "could
not decode this JPEG image : unspecified error (framebuffer is NULL)" with a
newline.  Exactly one of the texts printed on a failing decode is a decode
error message, and none of the texts printed on a successful decode is. -/
theorem run_reports_one_error (lib : VpuLibrary) (s : State) :
    (lib.dec_ret ≠ IMX_VPU_DEC_RETURN_CODE_OK →
      run_stderr lib s =
        [text_encoded_frame (to_unsigned s.ctx.fin.bytes.length),
         "could not decode this JPEG image : " ++
           lib.imx_vpu_dec_error_string lib.dec_ret ++ "\n"]) ∧
    (lib.dec_ret = IMX_VPU_DEC_RETURN_CODE_OK → lib.decoded_picture.framebuffer = none →
      run_stderr lib s =
        [text_encoded_frame (to_unsigned s.ctx.fin.bytes.length),
         "could not decode this JPEG image : unspecified error (framebuffer is NULL)\n"]) ∧
    (decode_failed lib → (run_stderr lib s).countP is_decode_error_text = 1) ∧
    (¬ decode_failed lib → (run_stderr lib s).countP is_decode_error_text = 0) := by
  refine ⟨fun h => run_stderr_of_error lib s h, fun h hfb => run_stderr_of_null lib s h hfb,
    fun h => ?_, fun h => ?_⟩
  · rcases decode_failed_cases lib with h1 | ⟨h1, h2⟩ | ⟨h1, fb, h2⟩
    · rw [run_stderr_of_error lib s h1]
      simp [List.countP_cons, text_encoded_frame_no_error, text_decode_error_is_error]
    · rw [run_stderr_of_null lib s h1 h2]
      simp [List.countP_cons, text_encoded_frame_no_error, text_framebuffer_null_is_error]
    · exact absurd h ((not_failed_iff lib).2 ⟨h1, fb, h2⟩)
  · rw [run_stderr_of_ok lib s h]
    simp [List.countP_cons, text_encoded_frame_no_error, text_info_no_error,
      text_writing_no_error]

/-- Witness of C8 at a decode call that returns the code 1, for which the
library of the example gives the error string "error". -/
theorem run_reports_one_error_witness :
    run_stderr lib_error start =
      [text_encoded_frame (to_unsigned start.ctx.fin.bytes.length),
       "could not decode this JPEG image : " ++ "error" ++ "\n"] ∧
    (run_stderr lib_error start).countP is_decode_error_text = 1 :=
  ⟨(run_reports_one_error lib_error start).1 (by decide),
   (run_reports_one_error lib_error start).2.2.1 (by decide)⟩

/-! ## The bytes of the output file -/

theorem fwrite_at_end (f : FILE) (data : List Byte) (hpos : f.pos = f.bytes.length) :
    (fwrite f data).bytes = f.bytes ++ data := by
  unfold fwrite
  simp [hpos]

theorem run_fout_bytes_ok (lib : VpuLibrary) (s : State) (h : ¬ decode_failed lib)
    (hpos : s.ctx.fout.pos = s.ctx.fout.bytes.length) :
    (run lib s).2.ctx.fout.bytes =
      s.ctx.fout.bytes ++
        read_mapped lib.mapped ((lib.info.y_size + 2 * lib.info.cbcr_size) % 2 ^ 32) := by
  rw [run_fout_ok lib s h, num_out_byte_eq, fwrite_at_end _ _ hpos]

/-- C10 on the code: on a successful run with the 2 x 2 picture, the output file
holds the six bytes of the mapped buffer and nothing else; it does not begin
with the magic number of a PPM header. -/
theorem output_has_no_ppm_header :
    ¬ decode_failed lib_ok ∧
    (run lib_ok start).1 = Retval.RETVAL_OK ∧
    (run lib_ok start).2.ctx.fout.bytes = [128, 129, 130, 131, 132, 133] ∧
    has_ppm_magic (run lib_ok start).2.ctx.fout.bytes = false := by
  have hout : (run lib_ok start).2.ctx.fout.bytes = [128, 129, 130, 131, 132, 133] := by
    rw [run_fout_bytes_ok lib_ok start (by decide) rfl]
    decide
  refine ⟨by decide, by decide, hout, ?_⟩
  rw [hout]
  decide

end JpegDecExample
